import Mathlib

/-!
# pixelgl shader-uniform binding: embedding of `pixelgl/glshader.go`

The Go file keeps, per canvas, an ordered table of named uniform declarations
(`GLShader.uniforms`), classifies the dynamic type of a declared value
(`getAttrType`), overwrites or appends declarations (`AddUniform`), resolves a
declaration to its current value (`gsUniformAttr.Value`) and derives the
attribute format handed to the shader compiler (`update`).

Modelling conventions.
* A Go `interface{}` value is a `GoVal`: the nil interface, a value of a
  non-pointer type together with its raw 32-bit words, or a typed pointer
  (possibly nil) to a storage cell.  No arithmetic is done on the words, so a
  `float32` is carried as its bit pattern.
* Memory is a total map from addresses to the words stored there; a pointer of
  type `*T` reads its cell as a `T`, as Go's static typing guarantees.
* A Go panic is an `Outcome.panic` carrying the message and the state at the
  moment of the panic.
* The packages `glhf`, `mgl32`, `mainthread` and `errors` are external; the
  compiler entry point `glhf.NewShader` is a parameter of `update`.
-/

namespace Pixelgl

/-! ## Types of the external packages -/

/-- Kinds of `glhf.AttrType`: the fourteen named constants, and `unknown` for any
other number of that integer type. -/
inductive AttrType
  | Int | Float | Vec2 | Vec3 | Vec4
  | Mat2 | Mat23 | Mat24 | Mat3 | Mat32 | Mat34 | Mat4 | Mat42 | Mat43
  | unknown (code : Nat)
  deriving DecidableEq, Repr

/-- One element of a `glhf.AttrFormat`: `glhf.Attr`. -/
structure Attr where
  Name : String
  Typ : AttrType
  deriving DecidableEq, Repr

/-- The Go slice type `glhf.AttrFormat`. -/
abbrev AttrFormat := List Attr

/-- A compiled program, `glhf.Shader`, identified by its handle. -/
structure Shader where
  handle : Nat
  deriving DecidableEq, Repr

/-! ## Go values -/

/-- Non-pointer Go types: the fourteen types of the type switch in `getAttrType`,
a few other builtin types, and `other` for any further named type. -/
inductive BaseType
  | int32 | float32
  | Vec2 | Vec3 | Vec4
  | Mat2 | Mat2x3 | Mat2x4 | Mat3 | Mat3x2 | Mat3x4 | Mat4 | Mat4x2 | Mat4x3
  | float64 | int | string | bool
  | other (name : String)
  deriving DecidableEq, Repr

/-- Go types: a non-pointer type, or a pointer to a type. -/
inductive GoType
  | base (b : BaseType)
  | ptr (t : GoType)
  deriving DecidableEq, Repr

/-- Addresses of storage cells: the four fields of `GLShader.uniformDefaults`, and
the variables owned by the caller. -/
inductive Addr
  | transform | colormask | bounds | texbounds
  | cell (n : Nat)
  deriving DecidableEq, Repr

/-- A value held in an `interface{}`. -/
inductive GoVal
  | nil
  | plain (t : BaseType) (data : List Nat)
  | ref (t : GoType) (addr : Option Addr)
  deriving DecidableEq, Repr

/-- The dynamic type of an interface value; the nil interface has none. -/
def GoVal.dynType : GoVal → Option GoType
  | .nil => none
  | .plain t _ => some (.base t)
  | .ref t _ => some (.ptr t)

/-- Memory: the words stored at each address. -/
abbrev Mem := Addr → List Nat

/-- The assignment `*a = w`. -/
def Mem.write (mem : Mem) (a : Addr) (w : List Nat) : Mem :=
  fun b => if b = a then w else mem b

/-- Result of running a Go function on a state: normal return, or a panic with
its message and the state reached when it was raised. -/
inductive Outcome (σ : Type)
  | done (st : σ)
  | panic (msg : String) (st : σ)
  deriving DecidableEq, Repr

/-- Sequencing of two steps: a panic stops the run. -/
def Outcome.bind {σ : Type} (r : Outcome σ) (f : σ → Outcome σ) : Outcome σ :=
  match r with
  | .done st => f st
  | .panic msg st => .panic msg st

/-- The state an outcome ends in. -/
def Outcome.state {σ : Type} : Outcome σ → σ
  | .done st => st
  | .panic _ st => st

/-- Whether the run returned normally. -/
def Outcome.isDone {σ : Type} : Outcome σ → Bool
  | .done _ => true
  | .panic _ _ => false

/-! ## The data model of `glshader.go` -/

/-- The struct `gsUniformAttr` (the field `Type` is spelled `Typ`). -/
structure gsUniformAttr where
  Name : String
  Typ : AttrType
  value : GoVal
  ispointer : Bool
  deriving DecidableEq, Repr

/-- The anonymous struct field `GLShader.uniformDefaults`. -/
structure UniformDefaults where
  transform : List Nat
  colormask : List Nat
  bounds : List Nat
  texbounds : List Nat
  deriving DecidableEq, Repr

/-- The struct `GLShader`; `s = none` is the nil program pointer. -/
structure GLShader where
  s : Option Shader
  vf : AttrFormat
  uf : AttrFormat
  vs : String
  fs : String
  uniforms : List gsUniformAttr
  uniformDefaults : UniformDefaults
  deriving DecidableEq, Repr

/-- Memory as seen with shader `gs` in it: the default fields are read from the
struct, every other address from the caller's variables. -/
def GLShader.mem (gs : GLShader) (heap : Nat → List Nat) : Mem
  | .transform => gs.uniformDefaults.transform
  | .colormask => gs.uniformDefaults.colormask
  | .bounds => gs.uniformDefaults.bounds
  | .texbounds => gs.uniformDefaults.texbounds
  | .cell n => heap n

/-- The signature of `glhf.NewShader(vf, uf, vs, fs)`: a program or an error text. -/
abbrev Compiler := AttrFormat → AttrFormat → String → String → Except String Shader

/-- Message of `errors.Wrap(err, message)`. -/
def errorsWrap (err : String) (message : String) : String :=
  message ++ ": " ++ err

/-! ## The functions of `glshader.go` -/

/-- The body of the `range` loop of `update`: append one `glhf.Attr` to `gs.uf`. -/
def updateStep (gs : GLShader) (u : gsUniformAttr) : GLShader :=
  { gs with uf := gs.uf ++ [{ Name := u.Name, Typ := u.Typ }] }

/-- `func (gs *GLShader) update()`. -/
def GLShader.update (NewShader : Compiler) (gs : GLShader) : Outcome GLShader :=
  let gs1 := { gs with uf := [] }
  let gs2 := gs1.uniforms.foldl updateStep gs1
  match NewShader gs2.vf gs2.uf gs2.vs gs2.fs with
  | .error err =>
    .panic (errorsWrap err "failed to create Canvas, there's a bug in the shader") gs2
  | .ok shader => .done { gs2 with s := some shader }

/-- The loop of `getUniform`, started at index `i`. -/
def getUniformFrom (Name : String) : List gsUniformAttr → Int → Int
  | [], _ => -1
  | u :: us, i => if u.Name = Name then i else getUniformFrom Name us (i + 1)

/-- `func (gs *GLShader) getUniform(Name string) int`. -/
def GLShader.getUniform (gs : GLShader) (Name : String) : Int :=
  getUniformFrom Name gs.uniforms 0

/-- `func getAttrType(v interface{}) (glhf.AttrType, bool)`. -/
def getAttrType (v : GoVal) : Except String (AttrType × Bool) :=
  match v.dynType with
  | some (.base .int32) => .ok (.Int, false)
  | some (.base .float32) => .ok (.Float, false)
  | some (.base .Vec2) => .ok (.Vec2, false)
  | some (.base .Vec3) => .ok (.Vec3, false)
  | some (.base .Vec4) => .ok (.Vec4, false)
  | some (.base .Mat2) => .ok (.Mat2, false)
  | some (.base .Mat2x3) => .ok (.Mat23, false)
  | some (.base .Mat2x4) => .ok (.Mat24, false)
  | some (.base .Mat3) => .ok (.Mat3, false)
  | some (.base .Mat3x2) => .ok (.Mat32, false)
  | some (.base .Mat3x4) => .ok (.Mat34, false)
  | some (.base .Mat4) => .ok (.Mat4, false)
  | some (.base .Mat4x2) => .ok (.Mat42, false)
  | some (.base .Mat4x3) => .ok (.Mat43, false)
  | some (.ptr (.base .Vec2)) => .ok (.Vec2, true)
  | some (.ptr (.base .Vec3)) => .ok (.Vec3, true)
  | some (.ptr (.base .Vec4)) => .ok (.Vec4, true)
  | some (.ptr (.base .Mat2)) => .ok (.Mat2, true)
  | some (.ptr (.base .Mat2x3)) => .ok (.Mat23, true)
  | some (.ptr (.base .Mat2x4)) => .ok (.Mat24, true)
  | some (.ptr (.base .Mat3)) => .ok (.Mat3, true)
  | some (.ptr (.base .Mat3x2)) => .ok (.Mat32, true)
  | some (.ptr (.base .Mat3x4)) => .ok (.Mat34, true)
  | some (.ptr (.base .Mat4)) => .ok (.Mat4, true)
  | some (.ptr (.base .Mat4x2)) => .ok (.Mat42, true)
  | some (.ptr (.base .Mat4x3)) => .ok (.Mat43, true)
  | some (.ptr (.base .int32)) => .ok (.Int, true)
  | some (.ptr (.base .float32)) => .ok (.Float, true)
  | _ => .error "invalid AttrType"

/-- The indexed field write `gs.uniforms[loc].f = x`: a run-time panic when `loc`
is outside the slice. -/
def assignUniform (gs : GLShader) (loc : Int) (f : gsUniformAttr → gsUniformAttr) :
    Outcome GLShader :=
  if loc < 0 then .panic "index out of range" gs
  else
    match gs.uniforms[loc.toNat]? with
    | some u => .done { gs with uniforms := gs.uniforms.set loc.toNat (f u) }
    | none => .panic "index out of range" gs

/-- `func (gs *GLShader) AddUniform(Name string, Value interface{})`. -/
def GLShader.AddUniform (gs : GLShader) (Name : String) (Value : GoVal) : Outcome GLShader :=
  match getAttrType Value with
  | .error msg => .panic msg gs
  | .ok (t, p) =>
    let loc := gs.getUniform Name
    if loc > -1 then
      (assignUniform gs loc (fun u => { u with Name := Name })).bind fun gs1 =>
      (assignUniform gs1 loc (fun u => { u with Typ := t })).bind fun gs2 =>
      (assignUniform gs2 loc (fun u => { u with ispointer := p })).bind fun gs3 =>
      assignUniform gs3 loc (fun u => { u with value := Value })
    else
      .done { gs with uniforms := gs.uniforms ++
        [{ Name := Name, Typ := t, ispointer := p, value := Value }] }

/-- The type assertion `v.(*T)` for a non-pointer type `T`. -/
def assertPtr (v : GoVal) (t : BaseType) : Except String (Option Addr) :=
  match v with
  | .ref (.base b) a => if b = t then .ok a else .error "interface conversion"
  | _ => .error "interface conversion"

/-- The expression `*gu.value.(*T)`: assert the pointer type, then read the cell. -/
def derefAs (mem : Mem) (v : GoVal) (t : BaseType) : Except String GoVal :=
  match assertPtr v t with
  | .error msg => .error msg
  | .ok none => .error "invalid memory address or nil pointer dereference"
  | .ok (some a) => .ok (.plain t (mem a))

/-- `func (gu *gsUniformAttr) Value() interface{}`, run in memory `mem`. -/
def gsUniformAttr.Value (mem : Mem) (gu : gsUniformAttr) : Except String GoVal :=
  if !gu.ispointer then .ok gu.value
  else
    match gu.Typ with
    | .Vec2 => derefAs mem gu.value .Vec2
    | .Vec3 => derefAs mem gu.value .Vec3
    | .Vec4 => derefAs mem gu.value .Vec4
    | .Mat2 => derefAs mem gu.value .Mat2
    | .Mat23 => derefAs mem gu.value .Mat2x3
    | .Mat24 => derefAs mem gu.value .Mat2x4
    | .Mat3 => derefAs mem gu.value .Mat3
    | .Mat32 => derefAs mem gu.value .Mat3x2
    | .Mat34 => derefAs mem gu.value .Mat3x4
    | .Mat4 => derefAs mem gu.value .Mat4
    | .Mat42 => derefAs mem gu.value .Mat4x2
    | .Mat43 => derefAs mem gu.value .Mat4x3
    | .Int => derefAs mem gu.value .int32
    | .Float => derefAs mem gu.value .float32
    | _ => .error "invalid attrtype"

/-- The variable `defaultCanvasVertexShader`. -/
def defaultCanvasVertexShader : String :=
  "\n#version 330 core\n\nin vec2 position;\nin vec4 color;\nin vec2 texCoords;\nin float intensity;\nout vec4 Color;\nout vec2 texcoords;\nout vec2 glpos;\nout float Intensity;\n\nuniform mat3 u_transform;\nuniform vec4 u_bounds;\n\nvoid main() \x7b\n\tvec2 transPos = (u_transform * vec3(position, 1.0)).xy;\n\tvec2 normPos = (transPos - u_bounds.xy) / u_bounds.zw * 2 - vec2(1, 1);\n\tgl_Position = vec4(normPos, 0.0, 1.0);\n\tColor = color;\n\ttexcoords = texCoords;\n\tIntensity = intensity;\n\tglpos = transPos;\n\x7d\n"

/-- The variable `baseCanvasFragmentShader`. -/
def baseCanvasFragmentShader : String :=
  "\n#version 330 core\n\nin vec4 Color;\nin vec2 texcoords;\nin float Intensity;\n\nout vec4 fragColor;\n\nuniform vec4 u_colormask;\nuniform vec4 u_texbounds;\nuniform sampler2D u_texture;\n\nvoid main() \x7b\n\tif (Intensity == 0) \x7b\n\t\tfragColor = u_colormask * Color;\n\t\x7d else \x7b\n\t\tfragColor = vec4(0, 0, 0, 0);\n\t\tfragColor += (1 - Intensity) * Color;\n\t\tvec2 t = (texcoords - u_texbounds.xy) / u_texbounds.zw;\n\t\tfragColor += Intensity * Color * texture(u_texture, t);\n\t\tfragColor *= u_colormask;\n\t\x7d\n\x7d\n"

/-- The zero value of the struct `uniformDefaults`: a zero `Mat3` and three zero
`Vec4`s. -/
def zeroDefaults : UniformDefaults :=
  { transform := List.replicate 9 0
    colormask := List.replicate 4 0
    bounds := List.replicate 4 0
    texbounds := List.replicate 4 0 }

/-- `func baseShader(c *Canvas)`: the result is the shader stored in `c.shader`.
The vertex format `defaultCanvasVertexFormat` is declared in another file and is
taken as a parameter. -/
def baseShader (defaultCanvasVertexFormat : AttrFormat) : Outcome GLShader :=
  let gs : GLShader :=
    { s := none
      vf := defaultCanvasVertexFormat
      uf := []
      vs := defaultCanvasVertexShader
      fs := baseCanvasFragmentShader
      uniforms := []
      uniformDefaults := zeroDefaults }
  (gs.AddUniform "u_transform" (.ref (.base .Mat3) (some .transform))).bind fun gs1 =>
  (gs1.AddUniform "u_colormask" (.ref (.base .Vec4) (some .colormask))).bind fun gs2 =>
  (gs2.AddUniform "u_bounds" (.ref (.base .Vec4) (some .bounds))).bind fun gs3 =>
  gs3.AddUniform "u_texbounds" (.ref (.base .Vec4) (some .texbounds))

/-- A run of `AddUniform` calls, one per element of `calls`, in order. -/
def AddUniforms (gs : GLShader) : List (String × GoVal) → Outcome GLShader
  | [] => .done gs
  | (n, v) :: rest => (gs.AddUniform n v).bind fun gs1 => AddUniforms gs1 rest

/-! ## Vocabulary of the specification -/

/-- The fourteen supported kinds as the specification lists them (Int32, Float32,
Vec2, Vec3, Vec4, Mat2, Mat2x3, Mat2x4, Mat3, Mat3x2, Mat3x4, Mat4, Mat4x2,
Mat4x3): the Go type of each, paired with the `glhf` constant that names it. -/
def supportedKinds : List (BaseType × AttrType) :=
  [(.int32, .Int), (.float32, .Float), (.Vec2, .Vec2), (.Vec3, .Vec3), (.Vec4, .Vec4),
   (.Mat2, .Mat2), (.Mat2x3, .Mat23), (.Mat2x4, .Mat24), (.Mat3, .Mat3), (.Mat3x2, .Mat32),
   (.Mat3x4, .Mat34), (.Mat4, .Mat4), (.Mat4x2, .Mat42), (.Mat4x3, .Mat43)]

/-- The specification's 28 supported input shapes: a value whose concrete type is
one of the fourteen enumerated types, or a reference to such a type. -/
def supportedShape (v : GoVal) : Bool :=
  match v.dynType with
  | some (.base b) => decide (b ∈ supportedKinds.map Prod.fst)
  | some (.ptr (.base b)) => decide (b ∈ supportedKinds.map Prod.fst)
  | _ => false

/-- The names of the table, in table order. -/
def GLShader.names (gs : GLShader) : List String :=
  gs.uniforms.map gsUniformAttr.Name

/-- The specification's `attributeFormat()`: the (name, kind) pairs of a table, in
table order. -/
def attributeFormat (us : List gsUniformAttr) : AttrFormat :=
  us.map fun u => { Name := u.Name, Typ := u.Typ }

/-- The zero value `GLShader{}`: no program, empty formats, sources and table. -/
def emptyShader : GLShader :=
  { s := none, vf := [], uf := [], vs := "", fs := "", uniforms := [],
    uniformDefaults := zeroDefaults }

/-- The table that `baseShader` builds: the four built-in declarations. -/
def baseUniforms : List gsUniformAttr :=
  [{ Name := "u_transform", Typ := .Mat3, value := .ref (.base .Mat3) (some .transform),
     ispointer := true },
   { Name := "u_colormask", Typ := .Vec4, value := .ref (.base .Vec4) (some .colormask),
     ispointer := true },
   { Name := "u_bounds", Typ := .Vec4, value := .ref (.base .Vec4) (some .bounds),
     ispointer := true },
   { Name := "u_texbounds", Typ := .Vec4, value := .ref (.base .Vec4) (some .texbounds),
     ispointer := true }]

/-- The state `NewCanvas` leaves behind: the table of `baseShader`, built once with
a compiler that returns program 1. -/
def builtShader : GLShader :=
  ((baseShader []).bind (GLShader.update fun _ _ _ _ => .ok { handle := 1 })).state

/-- The words of the 3x3 identity matrix `mgl32.Ident3()`: 1.0 (bits 1065353216) on
the diagonal, +0.0 elsewhere. -/
def identityMat3 : List Nat :=
  [1065353216, 0, 0, 0, 1065353216, 0, 0, 0, 1065353216]

/-- The words of the opaque-white vector `(1, 1, 1, 1)`. -/
def opaqueWhite : List Nat :=
  [1065353216, 1065353216, 1065353216, 1065353216]

/-- The names of the four built-in uniforms, in the order `baseShader` declares
them. -/
def baseNames : List String :=
  ["u_transform", "u_colormask", "u_bounds", "u_texbounds"]

/-- An argument of `AddUniform` that points at live storage: anything but a nil
pointer. -/
def isLive : GoVal → Bool
  | .ref _ none => false
  | _ => true

/-- The stored kind and reference flag of an entry agree with the concrete type of
its payload: they are what `getAttrType` returns for it. -/
def entryAgrees (e : gsUniformAttr) : Prop :=
  getAttrType e.value = .ok (e.Typ, e.ispointer)

/-! ## Lemmas on the lookup loop -/

theorem getUniformFrom_cases (Name : String) (us : List gsUniformAttr) (k : Int) :
    (getUniformFrom Name us k = -1 ∧ ∀ u ∈ us, u.Name ≠ Name) ∨
    (∃ j : Nat, ∃ u, getUniformFrom Name us k = k + j ∧ us[j]? = some u ∧ u.Name = Name ∧
      ∀ j2 u2, j2 < j → us[j2]? = some u2 → u2.Name ≠ Name) := by
  induction us generalizing k with
  | nil => left; simp [getUniformFrom]
  | cons a rest ih =>
    by_cases ha : a.Name = Name
    · right
      refine ⟨0, a, ?_, ?_, ha, ?_⟩
      · simp [getUniformFrom, ha]
      · simp
      · intro j2 u2 hj; omega
    · rcases ih (k + 1) with ⟨h1, h2⟩ | ⟨j, u, h1, h2, h3, h4⟩
      · left
        refine ⟨?_, ?_⟩
        · simp [getUniformFrom, ha, h1]
        · intro u hu
          rcases List.mem_cons.mp hu with rfl | hu
          · exact ha
          · exact h2 u hu
      · right
        refine ⟨j + 1, u, ?_, ?_, h3, ?_⟩
        · simp [getUniformFrom, ha, h1]; omega
        · simpa using h2
        · intro j2 u2 hj hu2
          cases j2 with
          | zero =>
            simp at hu2
            subst hu2
            exact ha
          | succ m =>
            simp at hu2
            exact h4 m u2 (by omega) hu2

theorem getUniform_cases (gs : GLShader) (Name : String) :
    (gs.getUniform Name = -1 ∧ ∀ u ∈ gs.uniforms, u.Name ≠ Name) ∨
    (∃ j : Nat, ∃ u, gs.getUniform Name = (j : Int) ∧ gs.uniforms[j]? = some u ∧ u.Name = Name ∧
      ∀ j2 u2, j2 < j → gs.uniforms[j2]? = some u2 → u2.Name ≠ Name) := by
  have h := getUniformFrom_cases Name gs.uniforms 0
  simpa [GLShader.getUniform] using h

/-! ## Lemmas on `AddUniform` -/

theorem assignUniform_done (gs : GLShader) (i : Nat) (u : gsUniformAttr)
    (f : gsUniformAttr → gsUniformAttr) (h : gs.uniforms[i]? = some u) :
    assignUniform gs (i : Int) f = .done { gs with uniforms := gs.uniforms.set i (f u) } := by
  have hneg : ¬ ((i : Int) < 0) := by omega
  simp [assignUniform, hneg, h]

theorem AddUniform_panics (gs : GLShader) (Name : String) (Value : GoVal) (msg : String)
    (hv : getAttrType Value = .error msg) :
    gs.AddUniform Name Value = .panic msg gs := by
  simp [GLShader.AddUniform, hv]

theorem AddUniform_found (gs : GLShader) (Name : String) (Value : GoVal) (t : AttrType)
    (p : Bool) (i : Nat) (hv : getAttrType Value = .ok (t, p))
    (hi : gs.getUniform Name = (i : Int)) :
    gs.AddUniform Name Value = .done { gs with uniforms :=
      (gs.uniforms.set i { Name := Name, Typ := t, value := Value, ispointer := p }) } := by
  rcases getUniform_cases gs Name with ⟨h1, _⟩ | ⟨j, u, h1, h2, _, _⟩
  · rw [h1] at hi; omega
  · have hji : j = i := by rw [h1] at hi; exact_mod_cast hi
    subst hji
    have hlt : j < gs.uniforms.length := by
      rcases List.getElem?_eq_some.mp h2 with ⟨h, _⟩; exact h
    have hpos : (j : Int) > -1 := by omega
    simp only [GLShader.AddUniform, hv, hi, hpos, if_true]
    rw [assignUniform_done gs j u _ h2]
    simp only [Outcome.bind]
    rw [assignUniform_done _ j { u with Name := Name } _ (by simp [hlt])]
    simp only [Outcome.bind]
    rw [assignUniform_done _ j { u with Name := Name, Typ := t } _ (by simp [hlt])]
    simp only [Outcome.bind]
    rw [assignUniform_done _ j { u with Name := Name, Typ := t, ispointer := p } _
      (by simp [hlt])]
    simp [List.set_set]

theorem AddUniform_new (gs : GLShader) (Name : String) (Value : GoVal) (t : AttrType)
    (p : Bool) (hv : getAttrType Value = .ok (t, p)) (hi : gs.getUniform Name = -1) :
    gs.AddUniform Name Value = .done { gs with uniforms :=
      (gs.uniforms ++ [{ Name := Name, Typ := t, value := Value, ispointer := p }]) } := by
  simp [GLShader.AddUniform, hv, hi]

/-! ## Classification -/

theorem getAttrType_plain_of_mem (b : BaseType) (k : AttrType) (h : (b, k) ∈ supportedKinds)
    (d : List Nat) : getAttrType (.plain b d) = .ok (k, false) := by
  simp only [supportedKinds, List.mem_cons, Prod.mk.injEq, List.mem_singleton,
    List.not_mem_nil, or_false] at h
  rcases h with h | h | h | h | h | h | h | h | h | h | h | h | h | h <;>
    (obtain ⟨rfl, rfl⟩ := h; rfl)

theorem getAttrType_ref_of_mem (b : BaseType) (k : AttrType) (h : (b, k) ∈ supportedKinds)
    (a : Option Addr) : getAttrType (.ref (.base b) a) = .ok (k, true) := by
  simp only [supportedKinds, List.mem_cons, Prod.mk.injEq, List.mem_singleton,
    List.not_mem_nil, or_false] at h
  rcases h with h | h | h | h | h | h | h | h | h | h | h | h | h | h <;>
    (obtain ⟨rfl, rfl⟩ := h; rfl)

theorem getAttrType_ok_inv (v : GoVal) (k : AttrType) (p : Bool)
    (h : getAttrType v = .ok (k, p)) :
    ∃ b, (b, k) ∈ supportedKinds ∧
      ((p = false ∧ ∃ d, v = .plain b d) ∨ (p = true ∧ ∃ a, v = .ref (.base b) a)) := by
  cases v with
  | nil => simp [getAttrType, GoVal.dynType] at h
  | plain b d =>
    refine ⟨b, ?_⟩
    cases b <;> simp [getAttrType, GoVal.dynType] at h <;>
      (obtain ⟨rfl, rfl⟩ := h; simp [supportedKinds])
  | ref t a =>
    cases t with
    | ptr t2 => simp [getAttrType, GoVal.dynType] at h
    | base b =>
      refine ⟨b, ?_⟩
      cases b <;> simp [getAttrType, GoVal.dynType] at h <;>
        (obtain ⟨rfl, rfl⟩ := h; simp [supportedKinds])

theorem getAttrType_error_msg (v : GoVal) (msg : String) (h : getAttrType v = .error msg) :
    msg = "invalid AttrType" := by
  cases v with
  | nil => simp [getAttrType, GoVal.dynType] at h; exact h.symm
  | plain b d =>
    cases b <;> simp [getAttrType, GoVal.dynType] at h <;> exact h.symm
  | ref t a =>
    cases t with
    | ptr t2 => simp [getAttrType, GoVal.dynType] at h; exact h.symm
    | base b => cases b <;> simp [getAttrType, GoVal.dynType] at h <;> exact h.symm

theorem supportedShape_iff (v : GoVal) :
    supportedShape v = true ↔ ∃ k p, getAttrType v = .ok (k, p) := by
  constructor
  · intro h
    cases v with
    | nil => simp [supportedShape, GoVal.dynType] at h
    | plain b d =>
      cases b <;> simp [supportedShape, GoVal.dynType, supportedKinds] at h <;>
        simp [getAttrType, GoVal.dynType]
    | ref t a =>
      cases t with
      | ptr t2 => simp [supportedShape, GoVal.dynType] at h
      | base b =>
        cases b <;> simp [supportedShape, GoVal.dynType, supportedKinds] at h <;>
          simp [getAttrType, GoVal.dynType]
  · rintro ⟨k, p, h⟩
    obtain ⟨b, hb, hcase⟩ := getAttrType_ok_inv v k p h
    have hmem : b ∈ supportedKinds.map Prod.fst := List.mem_map.mpr ⟨(b, k), hb, rfl⟩
    rcases hcase with ⟨_, d, rfl⟩ | ⟨_, a, rfl⟩
    · simpa [supportedShape, GoVal.dynType] using hmem
    · simpa [supportedShape, GoVal.dynType] using hmem

theorem getUniformFrom_congr (Name : String) (us vs : List gsUniformAttr) (k : Int)
    (h : us.map gsUniformAttr.Name = vs.map gsUniformAttr.Name) :
    getUniformFrom Name us k = getUniformFrom Name vs k := by
  induction us generalizing vs k with
  | nil =>
    cases vs with
    | nil => rfl
    | cons b rest => simp at h
  | cons a rest ih =>
    cases vs with
    | nil => simp at h
    | cons b rest2 =>
      simp only [List.map_cons, List.cons.injEq] at h
      simp only [getUniformFrom, h.1]
      rw [ih rest2 (k + 1) h.2]

theorem getUniformFrom_append_new (Name : String) (us : List gsUniformAttr)
    (e : gsUniformAttr) (k : Int) (hno : ∀ u ∈ us, u.Name ≠ Name) (he : e.Name = Name) :
    getUniformFrom Name (us ++ [e]) k = k + us.length := by
  induction us generalizing k with
  | nil => simp [getUniformFrom, he]
  | cons a rest ih =>
    have ha : a.Name ≠ Name := hno a (List.mem_cons_self a rest)
    have hrest : ∀ u ∈ rest, u.Name ≠ Name := fun u hu => hno u (List.mem_cons_of_mem a hu)
    have hstep : getUniformFrom Name (a :: rest ++ [e]) k =
        getUniformFrom Name (rest ++ [e]) (k + 1) := by
      simp [getUniformFrom, ha]
    rw [hstep, ih (k + 1) hrest]
    simp only [List.length_cons, Nat.cast_add, Nat.cast_one]
    omega

theorem map_Name_set (us : List gsUniformAttr) (i : Nat) (u e : gsUniformAttr)
    (hu : us[i]? = some u) (hn : e.Name = u.Name) :
    (us.set i e).map gsUniformAttr.Name = us.map gsUniformAttr.Name := by
  induction us generalizing i with
  | nil => simp
  | cons a rest ih =>
    cases i with
    | zero =>
      simp at hu
      subst hu
      simp [hn]
    | succ m =>
      simp at hu
      simp [ih m hu]

/-- The two ways `AddUniform` returns normally: overwrite at the index found, or
append when the name is absent. -/
theorem AddUniform_done_cases (gs : GLShader) (Name : String) (Value : GoVal)
    (k : AttrType) (p : Bool) (hv : getAttrType Value = .ok (k, p)) :
    (∃ i : Nat, ∃ u, gs.getUniform Name = (i : Int) ∧ gs.uniforms[i]? = some u ∧
      u.Name = Name ∧
      gs.AddUniform Name Value = .done { gs with uniforms :=
        (gs.uniforms.set i { Name := Name, Typ := k, value := Value, ispointer := p }) }) ∨
    (gs.getUniform Name = -1 ∧ (∀ u ∈ gs.uniforms, u.Name ≠ Name) ∧
      gs.AddUniform Name Value = .done { gs with uniforms :=
        (gs.uniforms ++ [{ Name := Name, Typ := k, value := Value, ispointer := p }]) }) := by
  rcases getUniform_cases gs Name with ⟨h1, h2⟩ | ⟨j, u, h1, h2, h3, _⟩
  · exact Or.inr ⟨h1, h2, AddUniform_new gs Name Value k p hv h1⟩
  · exact Or.inl ⟨j, u, h1, h2, h3, AddUniform_found gs Name Value k p j hv h1⟩

/-- After a normal return of `AddUniform`, the lookup of the declared name finds
the declared entry; it is the old index when the name was present before. -/
theorem AddUniform_lookup (gs : GLShader) (Name : String) (Value : GoVal)
    (k : AttrType) (p : Bool) (hv : getAttrType Value = .ok (k, p)) :
    ∃ gs2, ∃ i : Nat, gs.AddUniform Name Value = .done gs2 ∧
      gs2.getUniform Name = (i : Int) ∧ i < gs2.uniforms.length ∧
      gs2.uniforms[i]? = some { Name := Name, Typ := k, value := Value, ispointer := p } ∧
      (gs.getUniform Name ≠ -1 → gs.getUniform Name = (i : Int)) := by
  rcases AddUniform_done_cases gs Name Value k p hv with
    ⟨i, u, h1, h2, h3, h4⟩ | ⟨h1, h2, h4⟩
  · have hlt : i < gs.uniforms.length := by
      rcases List.getElem?_eq_some.mp h2 with ⟨h, _⟩; exact h
    refine ⟨_, i, h4, ?_, by simpa using hlt, by simp [hlt], fun _ => h1⟩
    have hc := getUniformFrom_congr Name
      (gs.uniforms.set i { Name := Name, Typ := k, value := Value, ispointer := p })
      gs.uniforms 0 (map_Name_set gs.uniforms i u _ h2 h3.symm)
    simp only [GLShader.getUniform] at h1 ⊢
    rw [hc, h1]
  · refine ⟨_, gs.uniforms.length, h4, ?_, by simp, by simp, fun h => absurd h1 h⟩
    simp only [GLShader.getUniform]
    rw [getUniformFrom_append_new Name gs.uniforms _ 0 h2 rfl]
    simp

/-! ## Lemmas on resolution -/

theorem Value_of_plain (mem : Mem) (Name : String) (k : AttrType) (v : GoVal) :
    gsUniformAttr.Value mem { Name := Name, Typ := k, value := v, ispointer := false }
      = .ok v := by
  simp [gsUniformAttr.Value]

theorem Value_of_ref (mem : Mem) (Name : String) (b : BaseType) (k : AttrType) (c : Addr)
    (h : (b, k) ∈ supportedKinds) :
    gsUniformAttr.Value mem
      { Name := Name, Typ := k, value := .ref (.base b) (some c), ispointer := true }
      = .ok (.plain b (mem c)) := by
  simp only [supportedKinds, List.mem_cons, Prod.mk.injEq, List.mem_singleton,
    List.not_mem_nil, or_false] at h
  rcases h with h | h | h | h | h | h | h | h | h | h | h | h | h | h <;>
    (obtain ⟨rfl, rfl⟩ := h; simp [gsUniformAttr.Value, derefAs, assertPtr])

theorem baseShader_eq (vf : AttrFormat) :
    baseShader vf = .done
      { s := none, vf := vf, uf := [], vs := defaultCanvasVertexShader,
        fs := baseCanvasFragmentShader, uniforms := baseUniforms,
        uniformDefaults := zeroDefaults } := by
  rfl

theorem AddUniform_names_nodup (gs : GLShader) (Name : String) (Value : GoVal)
    (hv : supportedShape Value = true) (hn : gs.names.Nodup) :
    ∃ gs2, gs.AddUniform Name Value = .done gs2 ∧ gs2.names.Nodup := by
  obtain ⟨k, p, hk⟩ := (supportedShape_iff Value).mp hv
  rcases AddUniform_done_cases gs Name Value k p hk with
    ⟨i, u, _, h2, h3, h4⟩ | ⟨_, h2, h4⟩
  · refine ⟨_, h4, ?_⟩
    simp only [GLShader.names]
    rw [map_Name_set gs.uniforms i u _ h2 h3.symm]
    exact hn
  · refine ⟨_, h4, ?_⟩
    simp only [GLShader.names, List.map_append, List.map_cons, List.map_nil]
    refine List.Nodup.append hn (List.nodup_singleton _) ?_
    intro a ha hb
    simp only [List.mem_singleton] at hb
    subst hb
    obtain ⟨u, hu, hname⟩ := List.mem_map.mp ha
    exact h2 u hu hname

theorem AddUniforms_names_nodup (calls : List (String × GoVal)) (gs : GLShader)
    (hv : ∀ c ∈ calls, supportedShape c.2 = true) (hn : gs.names.Nodup) :
    ∃ gs2, AddUniforms gs calls = .done gs2 ∧ gs2.names.Nodup := by
  induction calls generalizing gs with
  | nil => exact ⟨gs, rfl, hn⟩
  | cons c rest ih =>
    obtain ⟨n, v⟩ := c
    obtain ⟨gs1, h1, hn1⟩ :=
      AddUniform_names_nodup gs n v (hv (n, v) (List.mem_cons_self _ _)) hn
    obtain ⟨gs2, h2, hn2⟩ := ih gs1 (fun c hc => hv c (List.mem_cons_of_mem _ hc)) hn1
    refine ⟨gs2, ?_, hn2⟩
    simp [AddUniforms, h1, Outcome.bind, h2]

/-! ## Lemmas on `update` and on the fields `AddUniform` leaves alone -/

theorem foldl_updateStep (us : List gsUniformAttr) (gs : GLShader) :
    us.foldl updateStep gs = { gs with uf := gs.uf ++ attributeFormat us } := by
  induction us generalizing gs with
  | nil => simp [attributeFormat]
  | cons a rest ih =>
    simp only [List.foldl_cons, ih, updateStep, attributeFormat, List.map_cons,
      List.append_assoc, List.singleton_append]

theorem update_eq (NewShader : Compiler) (gs : GLShader) :
    gs.update NewShader =
      match NewShader gs.vf (attributeFormat gs.uniforms) gs.vs gs.fs with
      | .error err =>
        .panic (errorsWrap err "failed to create Canvas, there's a bug in the shader")
          { gs with uf := attributeFormat gs.uniforms }
      | .ok shader => .done { gs with uf := attributeFormat gs.uniforms, s := some shader } := by
  simp only [GLShader.update, foldl_updateStep, List.nil_append]

theorem update_state_uf (NewShader : Compiler) (gs : GLShader) :
    (gs.update NewShader).state.uf = attributeFormat gs.uniforms ∧
    (gs.update NewShader).state.uniforms = gs.uniforms := by
  rw [update_eq]
  cases NewShader gs.vf (attributeFormat gs.uniforms) gs.vs gs.fs <;> simp [Outcome.state]

theorem AddUniform_state (gs : GLShader) (Name : String) (Value : GoVal) :
    ∃ us, (gs.AddUniform Name Value).state = { gs with uniforms := us } := by
  cases hg : getAttrType Value with
  | error msg =>
    exact ⟨gs.uniforms, by rw [AddUniform_panics gs Name Value msg hg]; rfl⟩
  | ok r =>
    obtain ⟨k, p⟩ := r
    rcases AddUniform_done_cases gs Name Value k p hg with
      ⟨i, u, _, _, _, h4⟩ | ⟨_, _, h4⟩
    · exact ⟨_, by rw [h4]; rfl⟩
    · exact ⟨_, by rw [h4]; rfl⟩

/-! ## Claims on `AddUniform` and `getAttrType` -/

/-- C1: when `Name` is already in the table at index `i` and `Value` has a supported
type, `AddUniform` returns normally with a table of the same length whose entry `i`
has name `Name`, the kind and reference flag given by `getAttrType` and payload
`Value`, and whose entries at every other index are those of the table before. -/
theorem AddUniform_overwrites_in_place (gs : GLShader) (Name : String) (Value : GoVal)
    (k : AttrType) (p : Bool) (i : Nat)
    (hv : getAttrType Value = .ok (k, p)) (hi : gs.getUniform Name = (i : Int)) :
    ∃ gs2, gs.AddUniform Name Value = .done gs2 ∧
      gs2.uniforms.length = gs.uniforms.length ∧
      gs2.uniforms[i]? = some { Name := Name, Typ := k, value := Value, ispointer := p } ∧
      ∀ j, j ≠ i → gs2.uniforms[j]? = gs.uniforms[j]? := by
  refine ⟨_, AddUniform_found gs Name Value k p i hv hi, ?_, ?_, ?_⟩
  · simp
  · rcases getUniform_cases gs Name with ⟨h1, _⟩ | ⟨j, u, h1, h2, _, _⟩
    · rw [h1] at hi; omega
    · have hji : j = i := by rw [h1] at hi; exact_mod_cast hi
      subst hji
      have hlt : j < gs.uniforms.length := by
        rcases List.getElem?_eq_some.mp h2 with ⟨h, _⟩; exact h
      simp [hlt]
  · intro j hj
    simp [List.getElem?_set_ne (Ne.symm hj)]

/-- Scenario B of the specification, an instance of C1: `u_color` declared as a
`Vec4` value and redeclared as a `Mat3` value shows `Mat3` at the original
position 0. -/
theorem AddUniform_overwrites_in_place_witness :
    ∃ gs2,
      GLShader.AddUniform
        { s := none, vf := [], uf := [], vs := "", fs := "",
          uniforms := [{ Name := "u_color", Typ := .Vec4,
                         value := .plain .Vec4 [1065353216, 0, 0, 1065353216],
                         ispointer := false }],
          uniformDefaults := zeroDefaults }
        "u_color" (.plain .Mat3 [1065353216, 0, 0, 0, 1065353216, 0, 0, 0, 1065353216])
        = .done gs2 ∧
      gs2.uniforms.length = 1 ∧
      gs2.uniforms[0]? =
        some { Name := "u_color", Typ := .Mat3,
               value := .plain .Mat3 [1065353216, 0, 0, 0, 1065353216, 0, 0, 0, 1065353216],
               ispointer := false } ∧
      ∀ j, j ≠ 0 → gs2.uniforms[j]? =
        [({ Name := "u_color", Typ := .Vec4,
            value := .plain .Vec4 [1065353216, 0, 0, 1065353216],
            ispointer := false } : gsUniformAttr)][j]? :=
  AddUniform_overwrites_in_place _ "u_color" _ .Mat3 false 0 rfl (by decide)

/-- C2: when `Name` is not in the table (`getUniform` gives -1) and `Value` has a
supported type, `AddUniform` returns normally with a table one longer, whose first
entries are exactly the old table in order and whose last entry has name `Name`, the
kind and reference flag given by `getAttrType` and payload `Value`. -/
theorem AddUniform_appends_new (gs : GLShader) (Name : String) (Value : GoVal)
    (k : AttrType) (p : Bool)
    (hv : getAttrType Value = .ok (k, p)) (hi : gs.getUniform Name = -1) :
    ∃ gs2, gs.AddUniform Name Value = .done gs2 ∧
      gs2.uniforms.length = gs.uniforms.length + 1 ∧
      gs2.uniforms.take gs.uniforms.length = gs.uniforms ∧
      gs2.uniforms[gs.uniforms.length]? =
        some { Name := Name, Typ := k, value := Value, ispointer := p } ∧
      gs2.uniforms.getLast? =
        some { Name := Name, Typ := k, value := Value, ispointer := p } := by
  refine ⟨_, AddUniform_new gs Name Value k p hv hi, ?_, ?_, ?_, ?_⟩ <;> simp

/-- An instance of C2: declaring the new name `u_time` on a table holding `u_color`. -/
theorem AddUniform_appends_new_witness :
    ∃ gs2,
      GLShader.AddUniform
        { s := none, vf := [], uf := [], vs := "", fs := "",
          uniforms := [{ Name := "u_color", Typ := .Vec4,
                         value := .plain .Vec4 [1065353216, 0, 0, 1065353216],
                         ispointer := false }],
          uniformDefaults := zeroDefaults }
        "u_time" (.ref (.base .float32) (some (.cell 0))) = .done gs2 ∧
      gs2.uniforms.length = 1 + 1 ∧
      gs2.uniforms.take 1 =
        [{ Name := "u_color", Typ := .Vec4,
           value := .plain .Vec4 [1065353216, 0, 0, 1065353216], ispointer := false }] ∧
      gs2.uniforms[1]? =
        some { Name := "u_time", Typ := .Float,
               value := .ref (.base .float32) (some (.cell 0)), ispointer := true } ∧
      gs2.uniforms.getLast? =
        some { Name := "u_time", Typ := .Float,
               value := .ref (.base .float32) (some (.cell 0)), ispointer := true } :=
  AddUniform_appends_new _ "u_time" _ .Float true rfl (by decide)

/-- C3: for each of the fourteen supported kinds, `getAttrType` of a value of that
type returns the kind with flag `false`, and of a reference to that type the same
kind with flag `true`; the fourteen types are pairwise distinct, and two supported
inputs with the same result have the same concrete type, so the 28 shapes give 28
distinct results. -/
theorem getAttrType_supported_kinds :
    supportedKinds.length = 14 ∧
    (supportedKinds.map Prod.fst).Nodup ∧
    (∀ b k, (b, k) ∈ supportedKinds →
      (∀ d, getAttrType (.plain b d) = .ok (k, false)) ∧
      (∀ a, getAttrType (.ref (.base b) a) = .ok (k, true))) ∧
    (∀ v w, supportedShape v = true → supportedShape w = true →
      getAttrType v = getAttrType w → v.dynType = w.dynType) := by
  refine ⟨rfl, by decide, ?_, ?_⟩
  · intro b k h
    exact ⟨getAttrType_plain_of_mem b k h, getAttrType_ref_of_mem b k h⟩
  · intro v w hv hw hvw
    obtain ⟨k, p, h1⟩ := (supportedShape_iff v).mp hv
    have h2 : getAttrType w = .ok (k, p) := by rw [← hvw]; exact h1
    obtain ⟨b, hb, hcase⟩ := getAttrType_ok_inv v k p h1
    obtain ⟨c, hc, hcase2⟩ := getAttrType_ok_inv w k p h2
    have hbc : b = c := by
      cases k <;> simp [supportedKinds] at hb hc <;> simp [hb, hc]
    subst hbc
    rcases hcase with ⟨hp, d, rfl⟩ | ⟨hp, a, rfl⟩ <;>
      rcases hcase2 with ⟨hq, d2, rfl⟩ | ⟨hq, a2, rfl⟩ <;>
      simp_all [GoVal.dynType]

/-- An instance of C3: a `Mat2x3` value and a reference to a `Mat2x3` classify as
`Mat23` with flags `false` and `true`, and these inputs, having different results,
are told apart. -/
theorem getAttrType_supported_kinds_witness :
    getAttrType (.plain .Mat2x3 [0, 0, 0, 0, 0, 0]) = .ok (.Mat23, false) ∧
    getAttrType (.ref (.base .Mat2x3) (some (.cell 7))) = .ok (.Mat23, true) ∧
    (getAttrType (.plain .int32 [3]) = getAttrType (.ref (.base .int32) none) →
      GoVal.dynType (.plain .int32 [3]) = GoVal.dynType (.ref (.base .int32) none)) :=
  ⟨(getAttrType_supported_kinds.2.2.1 .Mat2x3 .Mat23 (by decide)).1 _,
   (getAttrType_supported_kinds.2.2.1 .Mat2x3 .Mat23 (by decide)).2 _,
   getAttrType_supported_kinds.2.2.2 _ _ (by decide) (by decide)⟩

/-- C4: `getAttrType` fails if and only if its input is outside the 28 supported
shapes, and then it panics with "invalid AttrType" and returns no kind; inside the
28 shapes it returns a kind. -/
theorem getAttrType_fails_iff_unsupported (v : GoVal) :
    ((∃ msg, getAttrType v = .error msg) ↔ supportedShape v = false) ∧
    (supportedShape v = false → getAttrType v = .error "invalid AttrType") ∧
    (supportedShape v = true → ∃ k p, getAttrType v = .ok (k, p)) := by
  have key : supportedShape v = false → getAttrType v = .error "invalid AttrType" := by
    intro h
    cases hg : getAttrType v with
    | error msg => rw [getAttrType_error_msg v msg hg]
    | ok r =>
      have : supportedShape v = true := (supportedShape_iff v).mpr ⟨r.1, r.2, hg⟩
      rw [h] at this
      exact absurd this (by decide)
  refine ⟨⟨?_, fun h => ⟨_, key h⟩⟩, key, (supportedShape_iff v).mp⟩
  rintro ⟨msg, hmsg⟩
  cases hs : supportedShape v with
  | false => rfl
  | true =>
    obtain ⟨k, p, h⟩ := (supportedShape_iff v).mp hs
    rw [h] at hmsg
    cases hmsg

/-- Instances of C4: a `float64`, a platform `int`, a `string` and a reference to a
reference all make `getAttrType` panic. -/
theorem getAttrType_fails_iff_unsupported_witness :
    getAttrType (.plain .float64 [0, 0]) = .error "invalid AttrType" ∧
    getAttrType (.plain .int [5]) = .error "invalid AttrType" ∧
    getAttrType (.plain .string [104, 105]) = .error "invalid AttrType" ∧
    getAttrType (.ref (.ptr (.base .Vec2)) (some (.cell 0))) = .error "invalid AttrType" ∧
    (∃ msg, getAttrType .nil = .error msg) :=
  ⟨(getAttrType_fails_iff_unsupported _).2.1 (by decide),
   (getAttrType_fails_iff_unsupported _).2.1 (by decide),
   (getAttrType_fails_iff_unsupported _).2.1 (by decide),
   (getAttrType_fails_iff_unsupported _).2.1 (by decide),
   (getAttrType_fails_iff_unsupported _).1.mpr (by decide)⟩

/-! ## Claims on resolution, name uniqueness and lookup -/

/-- C5: the entry that `AddUniform(Name, v)` creates for a supported `v` sits at
index `getUniform(Name)` and holds `v`; if `v` is a plain value, `Value()` returns
exactly `v` in every memory; if `v` is a reference to cell `c`, `Value()` returns
the content of `c` in the memory at resolution time, so that after `w` is written
to `c` it returns `w`. -/
theorem Value_resolves_declaration (gs : GLShader) (Name : String) (v : GoVal)
    (hv : supportedShape v = true) :
    ∃ gs2, ∃ i : Nat, ∃ e, gs.AddUniform Name v = .done gs2 ∧
      gs2.getUniform Name = (i : Int) ∧ gs2.uniforms[i]? = some e ∧ e.value = v ∧
      (∀ b d, v = .plain b d → ∀ mem : Mem, e.Value mem = .ok v) ∧
      (∀ b c, v = .ref (.base b) (some c) → ∀ mem : Mem,
        e.Value mem = .ok (.plain b (mem c)) ∧
        ∀ w, e.Value (mem.write c w) = .ok (.plain b w)) := by
  obtain ⟨k, p, hk⟩ := (supportedShape_iff v).mp hv
  obtain ⟨gs2, i, h1, h2, _, h4, _⟩ := AddUniform_lookup gs Name v k p hk
  obtain ⟨b0, hb0, hcase⟩ := getAttrType_ok_inv v k p hk
  refine ⟨gs2, i, _, h1, h2, h4, rfl, ?_, ?_⟩
  · intro b d hvd mem
    rcases hcase with ⟨hp, _⟩ | ⟨_, a, ha⟩
    · subst hp
      exact Value_of_plain mem Name k v
    · rw [ha] at hvd
      cases hvd
  · intro b c hvc mem
    rcases hcase with ⟨_, d, hd⟩ | ⟨hp, a, ha⟩
    · rw [hd] at hvc
      cases hvc
    · have hb : (b, k) ∈ supportedKinds := by
        rw [ha] at hvc
        injection hvc with ht _
        injection ht with ht
        rw [← ht]
        exact hb0
      rw [hp, hvc]
      refine ⟨Value_of_ref mem Name b k c hb, fun w => ?_⟩
      rw [Value_of_ref (mem.write c w) Name b k c hb]
      simp [Mem.write]

/-- Scenario A of the specification, an instance of C5: `u_amount` is declared as
a reference to the `float32` in cell 0, which holds 0.2 (bits 1045220557); the
entry resolves to 0.2, and after 0.5 (bits 1056964608) is written to the cell, to
0.5. -/
theorem Value_resolves_declaration_witness :
    ∃ gs2, ∃ i : Nat, ∃ e,
      emptyShader.AddUniform "u_amount" (.ref (.base .float32) (some (.cell 0)))
        = .done gs2 ∧
      gs2.getUniform "u_amount" = (i : Int) ∧ gs2.uniforms[i]? = some e ∧
      e.Value (fun _ => [1045220557]) = .ok (.plain .float32 [1045220557]) ∧
      e.Value (Mem.write (fun _ => [1045220557]) (.cell 0) [1056964608])
        = .ok (.plain .float32 [1056964608]) :=
  match Value_resolves_declaration emptyShader "u_amount"
    (.ref (.base .float32) (some (.cell 0))) (by decide) with
  | ⟨gs2, i, e, h1, h2, h3, _, _, h6⟩ =>
    ⟨gs2, i, e, h1, h2, h3, (h6 .float32 (.cell 0) rfl (fun _ => [1045220557])).1,
      (h6 .float32 (.cell 0) rfl (fun _ => [1045220557])).2 [1056964608]⟩

/-- C6: the empty table has pairwise distinct names; `AddUniform` with a supported
value returns normally and keeps the names pairwise distinct; hence every table
reached from the empty table, or from the table of `baseShader`, by a sequence of
`AddUniform` calls with supported values has no name twice. -/
theorem names_nodup_invariant :
    emptyShader.names.Nodup ∧
    (∀ (gs : GLShader) (Name : String) (Value : GoVal), supportedShape Value = true →
      gs.names.Nodup → ∃ gs2, gs.AddUniform Name Value = .done gs2 ∧ gs2.names.Nodup) ∧
    (∀ (gs : GLShader) (calls : List (String × GoVal)), gs.uniforms = [] →
      (∀ c ∈ calls, supportedShape c.2 = true) →
      ∃ gs2, AddUniforms gs calls = .done gs2 ∧ gs2.names.Nodup) ∧
    (∀ (vf : AttrFormat) (calls : List (String × GoVal)),
      (∀ c ∈ calls, supportedShape c.2 = true) →
      ∃ gs1 gs2, baseShader vf = .done gs1 ∧ AddUniforms gs1 calls = .done gs2 ∧
        gs1.names.Nodup ∧ gs2.names.Nodup) := by
  refine ⟨by decide, AddUniform_names_nodup, ?_, ?_⟩
  · intro gs calls hempty hv
    exact AddUniforms_names_nodup calls gs hv (by simp [GLShader.names, hempty])
  · intro vf calls hv
    have hbase : GLShader.names
        { s := none, vf := vf, uf := [], vs := defaultCanvasVertexShader,
          fs := baseCanvasFragmentShader, uniforms := baseUniforms,
          uniformDefaults := zeroDefaults } = 
        ["u_transform", "u_colormask", "u_bounds", "u_texbounds"] := rfl
    have hnd : (["u_transform", "u_colormask", "u_bounds", "u_texbounds"] :
        List String).Nodup := by decide
    obtain ⟨gs2, h2, hn2⟩ := AddUniforms_names_nodup calls _ hv (hbase ▸ hnd)
    exact ⟨_, gs2, baseShader_eq vf, h2, hbase ▸ hnd, hn2⟩

/-- An instance of C6: redeclaring `u_bounds` and declaring `u_time` twice on the
table of `baseShader` leaves no name twice. -/
theorem names_nodup_invariant_witness :
    ∃ gs1 gs2, baseShader [] = .done gs1 ∧
      AddUniforms gs1 [("u_bounds", .plain .float32 [0]),
        ("u_time", .ref (.base .float32) (some (.cell 1))),
        ("u_time", .plain .int32 [7])] = .done gs2 ∧
      gs1.names.Nodup ∧ gs2.names.Nodup :=
  names_nodup_invariant.2.2.2 [] _ (by decide)

/-- C7: `getUniform(Name)` is -1 exactly when no entry has that name; otherwise it
is an index inside the table whose entry has the name and below which no entry has
it.  After `AddUniform(Name, v)` with a supported `v` it is an in-range index whose
entry has the kind of `v`, equal to the index before the call when the name was
already declared. -/
theorem getUniform_spec (gs : GLShader) (Name : String) :
    (gs.getUniform Name = -1 ↔ ∀ u ∈ gs.uniforms, u.Name ≠ Name) ∧
    (gs.getUniform Name ≠ -1 → ∃ i : Nat, gs.getUniform Name = (i : Int) ∧
      i < gs.uniforms.length ∧ (∃ u, gs.uniforms[i]? = some u ∧ u.Name = Name) ∧
      ∀ j u, j < i → gs.uniforms[j]? = some u → u.Name ≠ Name) ∧
    (∀ v k p, getAttrType v = .ok (k, p) →
      ∃ gs2, ∃ i : Nat, ∃ e, gs.AddUniform Name v = .done gs2 ∧
        gs2.getUniform Name = (i : Int) ∧ i < gs2.uniforms.length ∧
        gs2.uniforms[i]? = some e ∧ e.Name = Name ∧ e.Typ = k ∧
        (gs.getUniform Name ≠ -1 → gs.getUniform Name = (i : Int))) := by
  refine ⟨?_, ?_, ?_⟩
  · rcases getUniform_cases gs Name with ⟨h1, h2⟩ | ⟨j, u, h1, h2, h3, _⟩
    · exact ⟨fun _ => h2, fun _ => h1⟩
    · constructor
      · intro h; rw [h1] at h; omega
      · intro h
        exact absurd h3 (h u (List.getElem?_mem h2))
  · intro hne
    rcases getUniform_cases gs Name with ⟨h1, _⟩ | ⟨j, u, h1, h2, h3, h4⟩
    · exact absurd h1 hne
    · have hlt : j < gs.uniforms.length := by
        rcases List.getElem?_eq_some.mp h2 with ⟨h, _⟩; exact h
      exact ⟨j, h1, hlt, ⟨u, h2, h3⟩, h4⟩
  · intro v k p hv
    obtain ⟨gs2, i, h1, h2, h3, h4, h5⟩ := AddUniform_lookup gs Name v k p hv
    exact ⟨gs2, i, _, h1, h2, h3, h4, rfl, rfl, h5⟩

/-- Scenario B of the specification, an instance of C7: on the table of
`baseShader`, redeclaring `u_colormask` as a `Mat3` value leaves `getUniform` at
the index it had. -/
theorem getUniform_spec_witness :
    ∃ gs2, ∃ i : Nat, ∃ e,
      GLShader.AddUniform (baseShader []).state "u_colormask"
        (.plain .Mat3 [0, 0, 0, 0, 0, 0, 0, 0, 0]) = .done gs2 ∧
      gs2.getUniform "u_colormask" = (i : Int) ∧ i < gs2.uniforms.length ∧
      gs2.uniforms[i]? = some e ∧ e.Name = "u_colormask" ∧ e.Typ = .Mat3 ∧
      ((baseShader []).state.getUniform "u_colormask" ≠ -1 →
        (baseShader []).state.getUniform "u_colormask" = (i : Int)) :=
  (getUniform_spec (baseShader []).state "u_colormask").2.2 _ .Mat3 false rfl

/-! ## Claims on `update` and on rebuilding -/

/-- C8: the format that `update` derives is the (Name, Type) sequence of the table
in table order (same length, element `i` from entry `i`), whatever `uf` held
before; it is the format passed to the compiler together with `vf`, `vs` and `fs`;
the table itself is not changed, so a second derivation gives the same format. -/
theorem update_derives_format (NewShader : Compiler) (gs : GLShader) :
    (gs.update NewShader).state.uf = attributeFormat gs.uniforms ∧
    (gs.update NewShader).state.uf.length = gs.uniforms.length ∧
    (∀ i : Nat, (gs.update NewShader).state.uf[i]? =
      (gs.uniforms[i]?).map fun u => ({ Name := u.Name, Typ := u.Typ } : Attr)) ∧
    (∀ old : AttrFormat, (GLShader.update NewShader { gs with uf := old }).state.uf =
      (gs.update NewShader).state.uf) ∧
    (gs.update NewShader =
      match NewShader gs.vf (attributeFormat gs.uniforms) gs.vs gs.fs with
      | .error err =>
        .panic (errorsWrap err "failed to create Canvas, there's a bug in the shader")
          { gs with uf := attributeFormat gs.uniforms }
      | .ok shader =>
        .done { gs with uf := attributeFormat gs.uniforms, s := some shader }) ∧
    (∀ Again : Compiler, ((gs.update NewShader).state.update Again).state.uf =
      (gs.update NewShader).state.uf) := by
  have h := update_state_uf NewShader gs
  refine ⟨h.1, ?_, ?_, ?_, ?_, ?_⟩
  · rw [h.1]; simp [attributeFormat]
  · intro i; rw [h.1]; simp [attributeFormat]
  · intro old
    rw [(update_state_uf NewShader { gs with uf := old }).1, h.1]
  · exact update_eq NewShader gs
  · intro Again
    rw [(update_state_uf Again _).1, h.2, h.1]

/-- C9, refuted as stated: on a built shader, `AddUniform` of the new name `u_time`
returns normally, but the stored format `uf` still has the four built-in entries
and is not the (Name, Type) sequence of the five-entry table, and the program
handle is the one compiled before the call. -/
theorem AddUniform_no_rebuild_counterexample :
    (builtShader.AddUniform "u_time" (.plain .float32 [0])).isDone = true ∧
    builtShader.uf = attributeFormat builtShader.uniforms ∧
    (builtShader.AddUniform "u_time" (.plain .float32 [0])).state.uf ≠
      attributeFormat (builtShader.AddUniform "u_time" (.plain .float32 [0])).state.uniforms ∧
    (builtShader.AddUniform "u_time" (.plain .float32 [0])).state.uf.length = 4 ∧
    (builtShader.AddUniform "u_time" (.plain .float32 [0])).state.uniforms.length = 5 ∧
    (builtShader.AddUniform "u_time" (.plain .float32 [0])).state.s = some { handle := 1 } := by
  decide

/-- C9 as amended: `AddUniform` triggers no rebuild, the stored format `uf` and the
program handle `s` after the call are exactly those held before it; a call of
`update` after it sets `uf` to the (Name, Type) sequence of the table and, when the
compilation succeeds, `s` to the program compiled against that format. -/
theorem AddUniform_keeps_format (gs : GLShader) (Name : String) (Value : GoVal) :
    (gs.AddUniform Name Value).state.uf = gs.uf ∧
    (gs.AddUniform Name Value).state.s = gs.s ∧
    ∀ NewShader : Compiler,
      ((gs.AddUniform Name Value).state.update NewShader).state.uf =
        attributeFormat (gs.AddUniform Name Value).state.uniforms ∧
      ∀ shader, NewShader gs.vf (attributeFormat (gs.AddUniform Name Value).state.uniforms)
          gs.vs gs.fs = .ok shader →
        ((gs.AddUniform Name Value).state.update NewShader).isDone = true ∧
        ((gs.AddUniform Name Value).state.update NewShader).state.s = some shader := by
  obtain ⟨us, hus⟩ := AddUniform_state gs Name Value
  rw [hus]
  refine ⟨rfl, rfl, fun NewShader => ⟨(update_state_uf NewShader _).1, ?_⟩⟩
  intro shader hsh
  rw [update_eq]
  simp only [hsh]
  exact ⟨rfl, rfl⟩

/-- An instance of the amended C9: after `u_time` is added to a built shader, an
`update` with a compiler returning program 2 stores the five-entry format and
program 2. -/
theorem AddUniform_keeps_format_witness :
    (GLShader.update (fun _ _ _ _ => .ok { handle := 2 })
      (builtShader.AddUniform "u_time" (.plain .float32 [0])).state).isDone = true ∧
    (GLShader.update (fun _ _ _ _ => .ok { handle := 2 })
      (builtShader.AddUniform "u_time" (.plain .float32 [0])).state).state.s
      = some { handle := 2 } :=
  (AddUniform_keeps_format builtShader "u_time" (.plain .float32 [0])).2.2
    (fun _ _ _ _ => .ok { handle := 2 }) |>.2 { handle := 2 } rfl

/-- C10: with compilation a step that returns a program or an error text, a failing
compilation makes `update` panic with the wrapped diagnostic while the handle `s`
is the one held before the call; a successful compilation makes `update` return
with `s` the new program. -/
theorem update_compile_outcome (NewShader : Compiler) (gs : GLShader) :
    (∀ err, NewShader gs.vf (attributeFormat gs.uniforms) gs.vs gs.fs = .error err →
      ∃ gs2, gs.update NewShader =
          .panic ("failed to create Canvas, there's a bug in the shader: " ++ err) gs2 ∧
        gs2.s = gs.s) ∧
    (∀ shader, NewShader gs.vf (attributeFormat gs.uniforms) gs.vs gs.fs = .ok shader →
      ∃ gs2, gs.update NewShader = .done gs2 ∧ gs2.s = some shader) := by
  constructor
  · intro err herr
    rw [update_eq]
    simp only [herr]
    exact ⟨_, rfl, rfl⟩
  · intro shader hsh
    rw [update_eq]
    simp only [hsh]
    exact ⟨_, rfl, rfl⟩

/-- Scenario C of the specification, an instance of C10: a first build whose
compilation fails panics with the diagnostic and leaves "no program"; a rebuild of
a built shader that fails keeps program 1. -/
theorem update_compile_outcome_witness :
    (∃ gs2, GLShader.update (fun _ _ _ _ => .error "0:1: syntax error") (baseShader []).state =
        .panic "failed to create Canvas, there's a bug in the shader: 0:1: syntax error" gs2 ∧
      gs2.s = none) ∧
    (∃ gs2, GLShader.update (fun _ _ _ _ => .error "0:1: syntax error") builtShader =
        .panic "failed to create Canvas, there's a bug in the shader: 0:1: syntax error" gs2 ∧
      gs2.s = some { handle := 1 }) :=
  ⟨(update_compile_outcome (fun _ _ _ _ => .error "0:1: syntax error")
      (baseShader []).state).1 "0:1: syntax error" rfl,
   (update_compile_outcome (fun _ _ _ _ => .error "0:1: syntax error")
      builtShader).1 "0:1: syntax error" rfl⟩

/-! ## Lemmas on the built-in uniforms -/

theorem AddUniform_names_prefix (gs : GLShader) (Name : String) (Value : GoVal)
    (hv : supportedShape Value = true) :
    ∃ gs2, gs.AddUniform Name Value = .done gs2 ∧ gs.names <+: gs2.names := by
  obtain ⟨k, p, hk⟩ := (supportedShape_iff Value).mp hv
  rcases AddUniform_done_cases gs Name Value k p hk with
    ⟨i, u, _, h2, h3, h4⟩ | ⟨_, _, h4⟩
  · refine ⟨_, h4, ?_⟩
    simp only [GLShader.names]
    rw [map_Name_set gs.uniforms i u _ h2 h3.symm]
  · refine ⟨_, h4, ?_⟩
    simp only [GLShader.names, List.map_append]
    exact List.prefix_append _ _

theorem AddUniforms_names_prefix (calls : List (String × GoVal)) (gs : GLShader)
    (hv : ∀ c ∈ calls, supportedShape c.2 = true) :
    ∃ gs2, AddUniforms gs calls = .done gs2 ∧ gs.names <+: gs2.names := by
  induction calls generalizing gs with
  | nil => exact ⟨gs, rfl, List.prefix_refl _⟩
  | cons c rest ih =>
    obtain ⟨n, v⟩ := c
    obtain ⟨gs1, h1, hp1⟩ :=
      AddUniform_names_prefix gs n v (hv (n, v) (List.mem_cons_self _ _))
    obtain ⟨gs2, h2, hp2⟩ := ih gs1 (fun c hc => hv c (List.mem_cons_of_mem _ hc))
    refine ⟨gs2, ?_, hp1.trans hp2⟩
    simp [AddUniforms, h1, Outcome.bind, h2]

theorem getUniform_of_base_prefix (gs : GLShader) (h : baseNames <+: gs.names) :
    gs.getUniform "u_transform" = 0 ∧ gs.getUniform "u_colormask" = 1 ∧
    gs.getUniform "u_bounds" = 2 ∧ gs.getUniform "u_texbounds" = 3 := by
  obtain ⟨rest, hrest⟩ := h
  simp only [GLShader.names, baseNames] at hrest
  simp only [GLShader.getUniform]
  match hus : gs.uniforms, hrest with
  | a :: b :: c :: d :: tl, hrest =>
    simp only [List.map_cons, List.cons_append, List.nil_append, List.cons.injEq] at hrest
    obtain ⟨ha, hb, hc, hd, _⟩ := hrest
    simp [getUniformFrom, ← ha, ← hb, ← hc, ← hd]
  | [], hrest => simp at hrest
  | [a], hrest => simp at hrest
  | [a, b], hrest => simp at hrest
  | [a, b, c], hrest => simp at hrest

/-! ## Lemmas on failure, well-formed entries and repeated declarations -/

theorem AddUniform_done_of_ok (gs : GLShader) (Name : String) (Value : GoVal)
    (k : AttrType) (p : Bool) (hv : getAttrType Value = .ok (k, p)) :
    ∃ gs2, gs.AddUniform Name Value = .done gs2 := by
  rcases AddUniform_done_cases gs Name Value k p hv with
    ⟨_, _, _, _, _, h4⟩ | ⟨_, _, h4⟩
  · exact ⟨_, h4⟩
  · exact ⟨_, h4⟩

theorem getUniform_after_set (gs : GLShader) (Name : String) (i : Nat)
    (u e : gsUniformAttr) (hi : gs.getUniform Name = (i : Int))
    (hu : gs.uniforms[i]? = some u) (hn : e.Name = u.Name) :
    GLShader.getUniform { gs with uniforms := gs.uniforms.set i e } Name = (i : Int) := by
  simp only [GLShader.getUniform] at hi ⊢
  rw [getUniformFrom_congr Name (gs.uniforms.set i e) gs.uniforms 0
    (map_Name_set gs.uniforms i u e hu hn), hi]

theorem getUniform_after_append (gs : GLShader) (Name : String) (e : gsUniformAttr)
    (hno : ∀ u ∈ gs.uniforms, u.Name ≠ Name) (hn : e.Name = Name) :
    GLShader.getUniform { gs with uniforms := gs.uniforms ++ [e] } Name =
      (gs.uniforms.length : Int) := by
  simp only [GLShader.getUniform]
  rw [getUniformFrom_append_new Name gs.uniforms e 0 hno hn]
  simp

theorem set_length_append (us : List gsUniformAttr) (a b : gsUniformAttr) :
    (us ++ [a]).set us.length b = us ++ [b] := by
  induction us with
  | nil => rfl
  | cons x rest ih => simp [ih]

/-- Declaring `Name` a second time, whatever the first declaration was, gives the
table of the second declaration alone. -/
theorem AddUniform_twice (gs : GLShader) (Name : String) (v w : GoVal)
    (hv : supportedShape v = true) (hw : supportedShape w = true) :
    (gs.AddUniform Name v).bind (fun gs1 => gs1.AddUniform Name w) =
      gs.AddUniform Name w := by
  obtain ⟨kv, pv, hkv⟩ := (supportedShape_iff v).mp hv
  obtain ⟨kw, pw, hkw⟩ := (supportedShape_iff w).mp hw
  rcases AddUniform_done_cases gs Name v kv pv hkv with
    ⟨i, u, h1, h2, h3, h4⟩ | ⟨h1, h2, h4⟩
  · rw [h4, AddUniform_found gs Name w kw pw i hkw h1]
    simp only [Outcome.bind]
    rw [AddUniform_found _ Name w kw pw i hkw
      (getUniform_after_set gs Name i u _ h1 h2 h3.symm)]
    simp [List.set_set]
  · rw [h4, AddUniform_new gs Name w kw pw hkw h1]
    simp only [Outcome.bind]
    rw [AddUniform_found _ Name w kw pw gs.uniforms.length hkw
      (getUniform_after_append gs Name _ h2 rfl)]
    simp [set_length_append]

theorem entryAgrees_resolves (e : gsUniformAttr) (h : entryAgrees e)
    (hl : isLive e.value = true) (mem : Mem) :
    ∃ b d, e.Value mem = .ok (.plain b d) ∧
      getAttrType (.plain b d) = .ok (e.Typ, false) := by
  obtain ⟨n, k, v, p⟩ := e
  simp only [entryAgrees] at h
  simp only at hl
  obtain ⟨b, hb, hcase⟩ := getAttrType_ok_inv v k p h
  rcases hcase with ⟨hp, d, hd⟩ | ⟨hp, a, ha⟩
  · subst hp; subst hd
    exact ⟨b, d, Value_of_plain mem n k _, getAttrType_plain_of_mem b k hb d⟩
  · subst hp; subst ha
    cases a with
    | none => simp [isLive] at hl
    | some c =>
      exact ⟨b, mem c, Value_of_ref mem n b k c hb, getAttrType_plain_of_mem b k hb _⟩

theorem entryAgrees_never_mismatch (e : gsUniformAttr) (h : entryAgrees e) (mem : Mem) :
    (∃ val, e.Value mem = .ok val) ∨
    (isLive e.value = false ∧
      e.Value mem = .error "invalid memory address or nil pointer dereference") := by
  cases hl : isLive e.value with
  | true =>
    obtain ⟨b, d, hval, _⟩ := entryAgrees_resolves e h hl mem
    exact Or.inl ⟨_, hval⟩
  | false =>
    right
    refine ⟨rfl, ?_⟩
    obtain ⟨n, k, v, p⟩ := e
    simp only [entryAgrees] at h
    simp only at hl
    obtain ⟨b, hb, hcase⟩ := getAttrType_ok_inv v k p h
    rcases hcase with ⟨hp, d, hd⟩ | ⟨hp, a, ha⟩
    · subst hd; simp [isLive] at hl
    · subst hp; subst ha
      cases a with
      | some c => simp [isLive] at hl
      | none =>
        simp only [supportedKinds, List.mem_cons, Prod.mk.injEq, List.mem_singleton,
          List.not_mem_nil, or_false] at hb
        rcases hb with h | h | h | h | h | h | h | h | h | h | h | h | h | h <;>
          (obtain ⟨rfl, rfl⟩ := h; simp [gsUniformAttr.Value, derefAs, assertPtr])

theorem AddUniform_entries_agree (gs : GLShader) (Name : String) (Value : GoVal)
    (hv : supportedShape Value = true)
    (hinv : ∀ e ∈ gs.uniforms, entryAgrees e) (P : GoVal → Prop)
    (hP : ∀ e ∈ gs.uniforms, P e.value) (hPv : P Value) :
    ∃ gs2, gs.AddUniform Name Value = .done gs2 ∧
      (∀ e ∈ gs2.uniforms, entryAgrees e) ∧ ∀ e ∈ gs2.uniforms, P e.value := by
  obtain ⟨k, p, hk⟩ := (supportedShape_iff Value).mp hv
  have hnew : entryAgrees { Name := Name, Typ := k, value := Value, ispointer := p } := hk
  rcases AddUniform_done_cases gs Name Value k p hk with
    ⟨i, u, _, _, _, h4⟩ | ⟨_, _, h4⟩
  · refine ⟨_, h4, ?_, ?_⟩
    · intro e he
      rcases List.mem_or_eq_of_mem_set he with h | h
      · exact hinv e h
      · rw [h]; exact hnew
    · intro e he
      rcases List.mem_or_eq_of_mem_set he with h | h
      · exact hP e h
      · rw [h]; exact hPv
  · refine ⟨_, h4, ?_, ?_⟩
    · intro e he
      rcases List.mem_append.mp he with h | h
      · exact hinv e h
      · rw [List.mem_singleton.mp h]; exact hnew
    · intro e he
      rcases List.mem_append.mp he with h | h
      · exact hP e h
      · rw [List.mem_singleton.mp h]; exact hPv

theorem AddUniforms_entries_agree (calls : List (String × GoVal)) (gs : GLShader)
    (hv : ∀ c ∈ calls, supportedShape c.2 = true)
    (hinv : ∀ e ∈ gs.uniforms, entryAgrees e) (P : GoVal → Prop)
    (hP : ∀ e ∈ gs.uniforms, P e.value) (hPv : ∀ c ∈ calls, P c.2) :
    ∃ gs2, AddUniforms gs calls = .done gs2 ∧
      (∀ e ∈ gs2.uniforms, entryAgrees e) ∧ ∀ e ∈ gs2.uniforms, P e.value := by
  induction calls generalizing gs with
  | nil => exact ⟨gs, rfl, hinv, hP⟩
  | cons c rest ih =>
    obtain ⟨n, v⟩ := c
    obtain ⟨gs1, h1, hi1, hp1⟩ := AddUniform_entries_agree gs n v
      (hv (n, v) (List.mem_cons_self _ _)) hinv P hP (hPv (n, v) (List.mem_cons_self _ _))
    obtain ⟨gs2, h2, hi2, hp2⟩ := ih gs1 (fun c hc => hv c (List.mem_cons_of_mem _ hc))
      hi1 hp1 (fun c hc => hPv c (List.mem_cons_of_mem _ hc))
    refine ⟨gs2, ?_, hi2, hp2⟩
    simp [AddUniforms, h1, Outcome.bind, h2]

/-! ## Claims on the built-in uniforms -/

/-- C11: the table built by `baseShader` has exactly four entries, in the order
`u_transform` (Mat3), `u_colormask` (Vec4), `u_bounds` (Vec4), `u_texbounds` (Vec4);
each is reference-bound and its pointer is the address of the matching field of the
shader's own `uniformDefaults`, so whatever is later written to those fields is what
`Value()` returns for the entries, with no new declaration. -/
theorem baseShader_table (vf : AttrFormat) :
    ∃ gs, baseShader vf = .done gs ∧
      gs.uniforms.length = 4 ∧
      gs.uniforms.map (fun u => (u.Name, u.Typ, u.ispointer)) =
        [("u_transform", .Mat3, true), ("u_colormask", .Vec4, true),
         ("u_bounds", .Vec4, true), ("u_texbounds", .Vec4, true)] ∧
      gs.uniforms.map gsUniformAttr.value =
        [.ref (.base .Mat3) (some .transform), .ref (.base .Vec4) (some .colormask),
         .ref (.base .Vec4) (some .bounds), .ref (.base .Vec4) (some .texbounds)] ∧
      ∀ (written : UniformDefaults) (heap : Nat → List Nat),
        gs.uniforms.map
            (gsUniformAttr.Value (GLShader.mem { gs with uniformDefaults := written } heap)) =
          [.ok (.plain .Mat3 written.transform), .ok (.plain .Vec4 written.colormask),
           .ok (.plain .Vec4 written.bounds), .ok (.plain .Vec4 written.texbounds)] := by
  refine ⟨_, baseShader_eq vf, rfl, rfl, rfl, ?_⟩
  intro written heap
  rfl

/-- C12, refuted as stated: right after `baseShader`, with nothing written, the
entry `u_transform` resolves to the zero 3x3 matrix, which is not the identity, and
`u_colormask` to the zero vector, which is not `(1, 1, 1, 1)`. -/
theorem baseShader_defaults_counterexample :
    (baseShader []).isDone = true ∧
    (baseShader []).state.getUniform "u_transform" = 0 ∧
    (baseShader []).state.getUniform "u_colormask" = 1 ∧
    (baseShader []).state.uniforms.map
        (gsUniformAttr.Value ((baseShader []).state.mem fun _ => [])) =
      [.ok (.plain .Mat3 [0, 0, 0, 0, 0, 0, 0, 0, 0]), .ok (.plain .Vec4 [0, 0, 0, 0]),
       .ok (.plain .Vec4 [0, 0, 0, 0]), .ok (.plain .Vec4 [0, 0, 0, 0])] ∧
    ((baseShader []).state.uniforms.map
        (gsUniformAttr.Value ((baseShader []).state.mem fun _ => [])))[0]? ≠
      some (.ok (.plain .Mat3 identityMat3)) ∧
    ((baseShader []).state.uniforms.map
        (gsUniformAttr.Value ((baseShader []).state.mem fun _ => [])))[1]? ≠
      some (.ok (.plain .Vec4 opaqueWhite)) := by
  refine ⟨rfl, by decide, by decide, rfl, ?_, ?_⟩
  · intro h
    have h2 : (some (Except.ok (GoVal.plain .Mat3 [0, 0, 0, 0, 0, 0, 0, 0, 0])) :
        Option (Except String GoVal)) = some (.ok (.plain .Mat3 identityMat3)) := h
    simp [identityMat3] at h2
  · intro h
    have h2 : (some (Except.ok (GoVal.plain .Vec4 [0, 0, 0, 0])) :
        Option (Except String GoVal)) = some (.ok (.plain .Vec4 opaqueWhite)) := h
    simp [opaqueWhite] at h2

/-- C12 as amended: right after `baseShader`, with nothing written, the storage
`uniformDefaults` holds Go zero values, so `u_transform` resolves to the zero 3x3
matrix and `u_colormask`, `u_bounds` and `u_texbounds` to the zero 4-vector; the
entries resolve to the identity matrix and to opaque white once these have been
written to the fields `transform` and `colormask`. -/
theorem baseShader_defaults_zero (vf : AttrFormat) :
    ∃ gs, baseShader vf = .done gs ∧
      gs.uniformDefaults = zeroDefaults ∧
      (∀ heap : Nat → List Nat, gs.uniforms.map (gsUniformAttr.Value (gs.mem heap)) =
        [.ok (.plain .Mat3 (List.replicate 9 0)), .ok (.plain .Vec4 (List.replicate 4 0)),
         .ok (.plain .Vec4 (List.replicate 4 0)), .ok (.plain .Vec4 (List.replicate 4 0))]) ∧
      ∀ heap : Nat → List Nat,
        (gs.uniforms.map (gsUniformAttr.Value (GLShader.mem
          { gs with uniformDefaults :=
              { gs.uniformDefaults with transform := identityMat3, colormask := opaqueWhite } }
          heap))).take 2 =
        [.ok (.plain .Mat3 identityMat3), .ok (.plain .Vec4 opaqueWhite)] := by
  refine ⟨_, baseShader_eq vf, rfl, fun heap => rfl, fun heap => rfl⟩

/-- C13: after any sequence of `AddUniform` calls with supported values on the table
of `baseShader`, the run returns normally and `getUniform` finds `u_transform`,
`u_colormask`, `u_bounds` and `u_texbounds` at indices 0, 1, 2 and 3; the names of the
table before the sequence are a prefix of the names after it, so no entry is removed
or moved. -/
theorem builtins_always_present (vf : AttrFormat) (calls : List (String × GoVal))
    (hv : ∀ c ∈ calls, supportedShape c.2 = true) :
    ∃ gs1 gs2, baseShader vf = .done gs1 ∧ AddUniforms gs1 calls = .done gs2 ∧
      gs2.getUniform "u_transform" = 0 ∧ gs2.getUniform "u_colormask" = 1 ∧
      gs2.getUniform "u_bounds" = 2 ∧ gs2.getUniform "u_texbounds" = 3 ∧
      gs1.names = baseNames ∧ gs1.names <+: gs2.names := by
  obtain ⟨gs2, h2, hp⟩ := AddUniforms_names_prefix calls
    { s := none, vf := vf, uf := [], vs := defaultCanvasVertexShader,
      fs := baseCanvasFragmentShader, uniforms := baseUniforms,
      uniformDefaults := zeroDefaults } hv
  have hb := getUniform_of_base_prefix gs2 hp
  exact ⟨_, gs2, baseShader_eq vf, h2, hb.1, hb.2.1, hb.2.2.1, hb.2.2.2, rfl, hp⟩

/-- An instance of C13: redeclaring the built-in `u_colormask` as a plain `Vec4`,
declaring `u_time` and redeclaring `u_transform` keeps the four built-in names at
indices 0 to 3. -/
theorem builtins_always_present_witness :
    ∃ gs1 gs2, baseShader [] = .done gs1 ∧
      AddUniforms gs1 [("u_colormask", .plain .Vec4 [0, 0, 0, 0]),
        ("u_time", .ref (.base .float32) (some (.cell 0))),
        ("u_transform", .ref (.base .Mat3) (some (.cell 1)))] = .done gs2 ∧
      gs2.getUniform "u_transform" = 0 ∧ gs2.getUniform "u_colormask" = 1 ∧
      gs2.getUniform "u_bounds" = 2 ∧ gs2.getUniform "u_texbounds" = 3 ∧
      gs1.names = baseNames ∧ gs1.names <+: gs2.names :=
  builtins_always_present [] _ (by decide)

/-! ## Claims on failure, safety of resolution and repeated declarations -/

/-- C14: for every shader, name and value, `AddUniform` panics if and only if
`getAttrType` fails on the value, and then with the same message; for every value of
a supported type it returns normally. -/
theorem AddUniform_fails_iff (gs : GLShader) (Name : String) (Value : GoVal) :
    ((∃ msg gs2, gs.AddUniform Name Value = .panic msg gs2) ↔
      ∃ msg, getAttrType Value = .error msg) ∧
    (∀ msg, getAttrType Value = .error msg →
      ∃ gs2, gs.AddUniform Name Value = .panic msg gs2) ∧
    (supportedShape Value = true → ∃ gs2, gs.AddUniform Name Value = .done gs2) := by
  refine ⟨⟨?_, ?_⟩, ?_, ?_⟩
  · rintro ⟨msg, gs2, h⟩
    cases hg : getAttrType Value with
    | error m => exact ⟨m, rfl⟩
    | ok r =>
      obtain ⟨k, p⟩ := r
      obtain ⟨gs3, h3⟩ := AddUniform_done_of_ok gs Name Value k p hg
      rw [h3] at h
      cases h
  · rintro ⟨msg, h⟩
    exact ⟨msg, gs, AddUniform_panics gs Name Value msg h⟩
  · intro msg h
    exact ⟨gs, AddUniform_panics gs Name Value msg h⟩
  · intro h
    obtain ⟨k, p, hk⟩ := (supportedShape_iff Value).mp h
    exact AddUniform_done_of_ok gs Name Value k p hk

/-- Instances of C14: with the empty name, and with the already declared name
`u_bounds`, a `float64` makes `AddUniform` panic and a `float32` lets it return. -/
theorem AddUniform_fails_iff_witness :
    (∃ gs2, emptyShader.AddUniform "" (.plain .float64 [0, 0]) =
      .panic "invalid AttrType" gs2) ∧
    (∃ gs2, GLShader.AddUniform (baseShader []).state "u_bounds" (.plain .float64 [0, 0]) =
      .panic "invalid AttrType" gs2) ∧
    (∃ gs2, emptyShader.AddUniform "" (.plain .float32 [0]) = .done gs2) ∧
    (∃ gs2, GLShader.AddUniform (baseShader []).state "u_bounds" (.plain .float32 [0]) =
      .done gs2) :=
  ⟨(AddUniform_fails_iff emptyShader "" (.plain .float64 [0, 0])).2.1 _ rfl,
   (AddUniform_fails_iff (baseShader []).state "u_bounds" (.plain .float64 [0, 0])).2.1 _ rfl,
   (AddUniform_fails_iff emptyShader "" (.plain .float32 [0])).2.2 (by decide),
   (AddUniform_fails_iff (baseShader []).state "u_bounds" (.plain .float32 [0])).2.2
     (by decide)⟩

/-- C15: when `AddUniform` fails because the value has an unsupported type, the panic
is raised with the shader exactly as before the call: the table and every other
field are unchanged, whether or not the name was declared; and any panic of
`AddUniform` leaves the shader as it was. -/
theorem AddUniform_atomic_on_failure (gs : GLShader) (Name : String) (Value : GoVal) :
    (supportedShape Value = false →
      gs.AddUniform Name Value = .panic "invalid AttrType" gs ∧
      (gs.AddUniform Name Value).state = gs ∧
      (gs.AddUniform Name Value).state.uniforms = gs.uniforms) ∧
    (∀ msg gs2, gs.AddUniform Name Value = .panic msg gs2 → gs2 = gs) := by
  constructor
  · intro h
    have hg : getAttrType Value = .error "invalid AttrType" := by
      cases hg : getAttrType Value with
      | error msg => rw [getAttrType_error_msg Value msg hg]
      | ok r =>
        have : supportedShape Value = true := (supportedShape_iff Value).mpr ⟨r.1, r.2, hg⟩
        rw [h] at this
        exact absurd this (by decide)
    have hp := AddUniform_panics gs Name Value _ hg
    rw [hp]
    exact ⟨rfl, rfl, rfl⟩
  · intro msg gs2 h
    cases hg : getAttrType Value with
    | error m =>
      rw [AddUniform_panics gs Name Value m hg] at h
      injection h with _ h2
      exact h2.symm
    | ok r =>
      obtain ⟨k, p⟩ := r
      obtain ⟨gs3, h3⟩ := AddUniform_done_of_ok gs Name Value k p hg
      rw [h3] at h
      cases h

/-- Instances of C15: a `string` value for the declared name `u_bounds` and for the
undeclared name `u_time` leaves the shader of `baseShader` as it was. -/
theorem AddUniform_atomic_on_failure_witness :
    (GLShader.AddUniform (baseShader []).state "u_bounds" (.plain .string [104])).state =
      (baseShader []).state ∧
    (GLShader.AddUniform (baseShader []).state "u_time" (.plain .string [104])).state =
      (baseShader []).state :=
  ⟨((AddUniform_atomic_on_failure (baseShader []).state "u_bounds"
      (.plain .string [104])).1 (by decide)).2.1,
   ((AddUniform_atomic_on_failure (baseShader []).state "u_time"
      (.plain .string [104])).1 (by decide)).2.1⟩

/-- C16: in a table reached from the empty table by `AddUniform` calls with supported
values, the kind and reference flag of every entry are those `getAttrType` gives for
its payload; so `Value()` never reaches the "invalid attrtype" branch and never fails
a type assertion, its only possible failure being the dereference of a nil pointer;
when every reference argument points at live storage, `Value()` returns a value for
every entry, in every memory. -/
theorem Value_total_on_reachable (gs : GLShader) (calls : List (String × GoVal))
    (hempty : gs.uniforms = []) (hv : ∀ c ∈ calls, supportedShape c.2 = true) :
    ∃ gs2, AddUniforms gs calls = .done gs2 ∧
      (∀ e ∈ gs2.uniforms, entryAgrees e) ∧
      (∀ e ∈ gs2.uniforms, ∀ mem : Mem,
        e.Value mem ≠ .error "invalid attrtype" ∧
        e.Value mem ≠ .error "interface conversion" ∧
        ((∃ val, e.Value mem = .ok val) ∨ isLive e.value = false)) ∧
      ((∀ c ∈ calls, isLive c.2 = true) →
        ∀ e ∈ gs2.uniforms, ∀ mem : Mem, ∃ val, e.Value mem = .ok val) := by
  obtain ⟨gs2, h2, hagree, hlive⟩ := AddUniforms_entries_agree calls gs hv
    (by simp [hempty])
    (fun v => (∀ c ∈ calls, isLive c.2 = true) → isLive v = true)
    (by simp [hempty]) (fun c hc hall => hall c hc)
  refine ⟨gs2, h2, hagree, ?_, ?_⟩
  · intro e he mem
    rcases entryAgrees_never_mismatch e (hagree e he) mem with ⟨val, hval⟩ | ⟨hl, herr⟩
    · rw [hval]
      exact ⟨by simp, by simp, Or.inl ⟨val, rfl⟩⟩
    · rw [herr]
      refine ⟨?_, ?_, Or.inr hl⟩
      · intro h; injection h with h; exact absurd h (by decide)
      · intro h; injection h with h; exact absurd h (by decide)
  · intro hall e he mem
    obtain ⟨b, d, hval, _⟩ := entryAgrees_resolves e (hagree e he) (hlive e he hall) mem
    exact ⟨_, hval⟩

/-- An instance of C16: after three declarations, among them a redeclaration of
`u_a` with another kind, every entry resolves in the memory whose cells all hold one
word. -/
theorem Value_total_on_reachable_witness :
    ∃ gs2, AddUniforms emptyShader [("u_a", .plain .Vec2 [0, 0]),
        ("u_b", .ref (.base .Mat4) (some (.cell 3))),
        ("u_a", .ref (.base .int32) (some (.cell 4)))] = .done gs2 ∧
      ∀ e ∈ gs2.uniforms, ∃ val, e.Value (fun _ => [7]) = .ok val :=
  match Value_total_on_reachable emptyShader [("u_a", .plain .Vec2 [0, 0]),
      ("u_b", .ref (.base .Mat4) (some (.cell 3))),
      ("u_a", .ref (.base .int32) (some (.cell 4)))] rfl (by decide) with
  | ⟨gs2, h2, _, _, h5⟩ => ⟨gs2, h2, fun e he => h5 (by decide) e he (fun _ => [7])⟩

/-- C17: the entry created by `AddUniform(Name, v)`, for a supported `v` that is not
a nil pointer, has the kind `getAttrType` gives for `v`, and in every memory it
resolves to a plain value, never a reference, whose classification is that kind with
flag `false`. -/
theorem Value_agrees_with_classification (gs : GLShader) (Name : String) (v : GoVal)
    (hv : supportedShape v = true) (hl : isLive v = true) :
    ∃ gs2, ∃ i : Nat, ∃ e k p, getAttrType v = .ok (k, p) ∧
      gs.AddUniform Name v = .done gs2 ∧
      gs2.getUniform Name = (i : Int) ∧ gs2.uniforms[i]? = some e ∧ e.Typ = k ∧
      ∀ mem : Mem, ∃ b d, e.Value mem = .ok (.plain b d) ∧
        getAttrType (.plain b d) = .ok (e.Typ, false) := by
  obtain ⟨k, p, hk⟩ := (supportedShape_iff v).mp hv
  obtain ⟨gs2, i, h1, h2, _, h4, _⟩ := AddUniform_lookup gs Name v k p hk
  refine ⟨gs2, i, _, k, p, hk, h1, h2, h4, rfl, ?_⟩
  intro mem
  exact entryAgrees_resolves { Name := Name, Typ := k, value := v, ispointer := p } hk hl mem

/-- An instance of C17: `u_amount` declared as a reference to the `float32` in cell
0 resolves to a plain value classified as `Float` with flag `false`. -/
theorem Value_agrees_with_classification_witness :
    ∃ gs2, ∃ i : Nat, ∃ e k p,
      getAttrType (.ref (.base .float32) (some (.cell 0))) = .ok (k, p) ∧
      emptyShader.AddUniform "u_amount" (.ref (.base .float32) (some (.cell 0)))
        = .done gs2 ∧
      gs2.getUniform "u_amount" = (i : Int) ∧ gs2.uniforms[i]? = some e ∧ e.Typ = k ∧
      ∀ mem : Mem, ∃ b d, e.Value mem = .ok (.plain b d) ∧
        getAttrType (.plain b d) = .ok (e.Typ, false) :=
  Value_agrees_with_classification emptyShader "u_amount"
    (.ref (.base .float32) (some (.cell 0))) (by decide) (by decide)

/-- C18: for supported values `v` and `w`, `AddUniform(Name, w)` after
`AddUniform(Name, v)` ends in the same shader, hence the same table, as
`AddUniform(Name, w)` alone, whether or not the name was in the table before (so in
particular when it was); and `AddUniform(Name, v)` applied twice ends in the same
shader as applied once.  Both runs return normally. -/
theorem AddUniform_idempotent_last_write_wins (gs : GLShader) (Name : String)
    (v w : GoVal) (hv : supportedShape v = true) (hw : supportedShape w = true) :
    (gs.AddUniform Name v).bind (fun gs1 => gs1.AddUniform Name w) = gs.AddUniform Name w ∧
    (gs.AddUniform Name v).bind (fun gs1 => gs1.AddUniform Name v) = gs.AddUniform Name v ∧
    (∃ gs2, gs.AddUniform Name v = .done gs2) ∧ ∃ gs3, gs.AddUniform Name w = .done gs3 := by
  obtain ⟨kv, pv, hkv⟩ := (supportedShape_iff v).mp hv
  obtain ⟨kw, pw, hkw⟩ := (supportedShape_iff w).mp hw
  exact ⟨AddUniform_twice gs Name v w hv hw, AddUniform_twice gs Name v v hv hv,
    AddUniform_done_of_ok gs Name v kv pv hkv, AddUniform_done_of_ok gs Name w kw pw hkw⟩

/-- An instance of C18: on the table of `baseShader`, declaring `u_colormask` as a
`Vec4` value and then as a `Mat3` value ends as declaring the `Mat3` value alone. -/
theorem AddUniform_idempotent_last_write_wins_witness :
    (GLShader.AddUniform (baseShader []).state "u_colormask"
        (.plain .Vec4 [1065353216, 0, 0, 1065353216])).bind
      (fun gs1 => gs1.AddUniform "u_colormask" (.plain .Mat3 identityMat3)) =
    GLShader.AddUniform (baseShader []).state "u_colormask" (.plain .Mat3 identityMat3) :=
  (AddUniform_idempotent_last_write_wins (baseShader []).state "u_colormask"
    (.plain .Vec4 [1065353216, 0, 0, 1065353216]) (.plain .Mat3 identityMat3)
    (by decide) (by decide)).1

end Pixelgl
